import Mathlib

/-!
Shallow embedding of `src/xtgeo/grid3d/grid_property.py` (the `GridProperty`
class) for checking the natural-language specification against the code.

Modelling conventions:
* numpy masked arrays are modelled as a flat C-order list of rational data
  values together with a parallel list of booleans (the mask; `true` = masked)
  plus a shape triple and a dtype tag.  Floating-point rounding is not
  modelled: float values are exact rationals.  Integer casts truncate toward
  zero and wrap at the dtype's width, mirroring C casts.
* Python exceptions are modelled by an `Except PyExc` result; raising means
  the stored state of the caller is left untouched (the pure embedding
  returns `.error` without producing a new state).
* External collaborator modules (`_gridprop_import`, `_gridprop_export`,
  `_gridprop_op1`, the `_cxtgeo` codec) are out of scope per the spec; they
  appear as parameters (the polygon operation implementation, the codec's
  integer status code) or as recorded call descriptions (export calls).
-/

/-- Substring test on character lists: `startsWithSeq pat l` is true when
`pat` is a leading segment of `l`.  Used to model Python's `in` operator on
strings (`'roff' in fformat`, `'int' in str(dtype)`). -/
def startsWithSeq : List Char → List Char → Bool
  | [], _ => true
  | _ :: _, [] => false
  | p :: ps, c :: cs => p = c && startsWithSeq ps cs

/-- Occurrence test: `hasSeq pat l` is true when `pat` occurs contiguously
somewhere in `l`. -/
def hasSeq (pat : List Char) : List Char → Bool
  | [] => startsWithSeq pat []
  | c :: cs => startsWithSeq pat (c :: cs) || hasSeq pat cs

/-- Python's `needle in hay` test for strings. -/
def strHas (hay needle : String) : Bool :=
  hasSeq needle.toList hay.toList

/-- Truncation toward zero, as performed by numpy `astype` from float to an
integer dtype (C cast semantics for in-range values). -/
def truncRat (q : Rat) : Int :=
  if 0 ≤ q then q.floor else q.ceil

/-- Two's-complement wrap of an integer into `bits` signed bits. -/
def wrapSigned (bits : Nat) (z : Int) : Int :=
  (z + 2 ^ (bits - 1)) % 2 ^ bits - 2 ^ (bits - 1)

/-- Wrap of an integer into `bits` unsigned bits. -/
def wrapUnsigned (bits : Nat) (z : Int) : Int :=
  z % 2 ^ bits

/-- The numpy dtypes that occur in `grid_property.py`. -/
inductive NpDtype
  | float16
  | float32
  | float64
  | uint8
  | uint16
  | int16
  | int32
  | int64
deriving DecidableEq

/-- The Python `str(dtype)` name of a dtype, as numpy prints it. -/
def NpDtype.pyName : NpDtype → String
  | .float16 => "float16"
  | .float32 => "float32"
  | .float64 => "float64"
  | .uint8 => "uint8"
  | .uint16 => "uint16"
  | .int16 => "int16"
  | .int32 => "int32"
  | .int64 => "int64"

/-- The values setter tests `'int' in str(values.dtype)` (line 400 of the
source); this is that exact substring test. -/
def NpDtype.isIntLike (dt : NpDtype) : Bool :=
  strHas dt.pyName "int"

/-- Bit width of a dtype. -/
def NpDtype.bits : NpDtype → Nat
  | .float16 => 16
  | .float32 => 32
  | .float64 => 64
  | .uint8 => 8
  | .uint16 => 16
  | .int16 => 16
  | .int32 => 32
  | .int64 => 64

/-- Signedness of an integer dtype (irrelevant for floats). -/
def NpDtype.isSigned : NpDtype → Bool
  | .uint8 => false
  | .uint16 => false
  | _ => true

/-- Value cast applied elementwise by `astype` and by scalar assignment into
an array of the given dtype.  Integer dtypes truncate toward zero and wrap
at the width; float dtypes are modelled exactly (no rounding model). -/
def NpDtype.castRat (dt : NpDtype) (q : Rat) : Rat :=
  if dt.isIntLike then
    if dt.isSigned then ((wrapSigned dt.bits (truncRat q) : Int) : Rat)
    else ((wrapUnsigned dt.bits (truncRat q) : Int) : Rat)
  else q

/-- A numpy masked array: shape triple, flat C-order data, parallel boolean
mask (`true` = undefined cell), and dtype tag.  A plain (unmasked) ndarray
is represented with an all-`false` mask, matching `ma.array` wrapping with
`nomask`. -/
structure MArr where
  shape : Nat × Nat × Nat
  data : List Rat
  mask : List Bool
  dtype : NpDtype
deriving DecidableEq

/-- Total number of elements announced by the shape. -/
def MArr.size (a : MArr) : Nat :=
  a.shape.1 * a.shape.2.1 * a.shape.2.2

/-- numpy `astype`: elementwise cast of the data; the mask is kept as is. -/
def MArr.astype (a : MArr) (dt : NpDtype) : MArr :=
  { a with data := a.data.map dt.castRat, dtype := dt }

/-- Modelled from the spec: the undefined-value sentinel and threshold
constants of the external compiled `_cxtgeo` module (not part of the
analyzed sources).  The spec fixes only that the limit is a "threshold
strictly below the sentinel"; representative concrete values are used,
continuous sentinel `1e33` with limit `9.9e32`, discrete sentinel
`2000000000` with limit `1999999999`. -/
def UNDEF : Rat := 10 ^ 33

/-- Modelled from the spec: continuous undefined threshold, strictly below
`UNDEF`. -/
def UNDEF_LIMIT : Rat := 99 * 10 ^ 31

/-- Modelled from the spec: discrete undefined sentinel. -/
def UNDEF_INT : Int := 2000000000

/-- Modelled from the spec: discrete undefined threshold, strictly below
`UNDEF_INT`. -/
def UNDEF_INT_LIMIT : Int := 1999999999

/-- Python exception outcomes raised by the embedded code paths.  The spec's
abstract error taxonomy (section 7) maps onto these concrete exceptions:
its `ShapeError` is the `ValueError` numpy's `reshape` raises on an element
count mismatch, and its `PreconditionError` is the `ValueError` raised when
required state (geometry, a restart date) is absent. -/
inductive PyExc
  | valueError (msg : String)
  | indexError (msg : String)
  | ioError
  | systemExit (msg : String)
  | runtimeError (msg : String)
  | dateNotFoundError (msg : String)
  | keywordNotFoundError (msg : String)
  | keywordFoundNoDateError (msg : String)
deriving DecidableEq

/-- The external `Grid` geometry class, reduced to the only attribute the
embedded code consults (`dimensions`). -/
structure Grid where
  dimensions : Nat × Nat × Nat
deriving DecidableEq

/-- The `GridProperty` instance state.  Attributes never consulted by any
analyzed claim (`_date`, `_filesrc`, `_roxorigin`, `_actnum_indices`) are
omitted; the undef sentinels are the global constants above. -/
structure GridProperty where
  ncol : Nat
  nrow : Nat
  nlay : Nat
  name : String
  isdiscrete : Bool
  values : MArr
  codes : List (Int × String)
  geometry : Option Grid
  roxar_dtype : NpDtype
deriving DecidableEq

/-- Sorted insertion without duplicates, for modelling `np.unique`. -/
def insertUnique (x : Int) : List Int → List Int
  | [] => [x]
  | y :: ys =>
    if x = y then y :: ys
    else if x < y then x :: y :: ys
    else y :: insertUnique x ys

/-- Sorted duplicate-free list of the inputs (`np.unique(...).tolist()`). -/
def uniqueSorted (l : List Int) : List Int :=
  l.foldr insertUnique []

/-- Code table built by `continuous_to_discrete`: each distinct value of the
(already int-cast) array mapped to its own decimal string, per
`uniq = np.unique(val).tolist(); codes = dict(zip(uniq, uniq))` followed by
stringification of the values.  (The data is integral at the call site, so
`truncRat` is the identity there.) -/
def buildCodes (a : MArr) : List (Int × String) :=
  (uniqueSorted (a.data.map truncRat)).map (fun z => (z, toString z))

/-- The `discrete_to_continuous` method (source lines 889-901): when the
property is discrete, copy and cast the values to float64, clear the
discrete flag and the code table, and reset the roxar dtype; otherwise a
logged no-op. -/
def discrete_to_continuous (gp : GridProperty) : GridProperty :=
  if gp.isdiscrete then
    { gp with
      values := gp.values.astype .float64
      isdiscrete := false
      codes := []
      roxar_dtype := .float32 }
  else gp

/-- The `continuous_to_discrete` method (source lines 903-920): when the
property is continuous, copy and cast the values to int32, set the discrete
flag, rebuild the code table from the distinct values, and set the roxar
dtype; otherwise a logged no-op. -/
def continuous_to_discrete (gp : GridProperty) : GridProperty :=
  if gp.isdiscrete then gp
  else
    { gp with
      values := gp.values.astype .int32
      isdiscrete := true
      codes := buildCodes (gp.values.astype .int32)
      roxar_dtype := .uint16 }

/-- An ndarray argument as passed to the constructor or the values setter:
either a plain ndarray or a masked array. -/
inductive NdArr
  | plain (shape : Nat × Nat × Nat) (data : List Rat) (dtype : NpDtype)
  | masked (shape : Nat × Nat × Nat) (data : List Rat) (mask : List Bool)
      (dtype : NpDtype)
deriving DecidableEq

/-- Well-formedness of an ndarray argument: the flat data matches the
announced shape, and a mask (when present) parallels the data.  Any array
produced by numpy satisfies this. -/
def NdArr.wfb : NdArr → Bool
  | .plain sh d _ => d.length == sh.1 * sh.2.1 * sh.2.2
  | .masked sh d m _ => d.length == sh.1 * sh.2.1 * sh.2.2 && m.length == d.length

/-- A Python value passed to the values setter: an ndarray, or anything
else (which the setter rejects). -/
inductive PyVal
  | arr (a : NdArr)
  | notArray
deriving DecidableEq

/-- Well-formedness of a setter argument (trivial for non-arrays). -/
def PyVal.wfb : PyVal → Bool
  | .arr a => a.wfb
  | .notArray => true

/-- numpy `reshape` to a 3-shape: succeeds exactly when the element count
matches the target shape's product, else raises `ValueError`. -/
def np_reshape (a : MArr) (s : Nat × Nat × Nat) : Except PyExc MArr :=
  if a.data.length = s.1 * s.2.1 * s.2.2 then .ok { a with shape := s }
  else .error (.valueError "cannot reshape array")

/-- Tail of the values setter (source lines 397-407): after storing the new
array, inspect its dtype with `'int' in str(dtype)`; when the resulting
flag differs from the instance's current `isdiscrete`, trigger the
corresponding conversion. -/
def vsTail (gp1 : GridProperty) : GridProperty :=
  let trydiscrete := gp1.values.dtype.isIntLike
  if trydiscrete = gp1.isdiscrete then gp1
  else if trydiscrete then continuous_to_discrete gp1
  else discrete_to_continuous gp1

/-- The `values` setter (source lines 384-410): a plain ndarray is wrapped
as masked (all-false mask) and reshaped to the fixed dimensions; a masked
array is reshaped directly; anything else raises `ValueError`.  Reshape
raises `ValueError` when the element count does not match (the spec's
`ShapeError`), in which case the stored state is untouched.  On success the
new array is stored and dtype auto-detection may trigger a conversion. -/
def values_setter (gp : GridProperty) (v : PyVal) : Except PyExc GridProperty :=
  match v with
  | .arr (.plain _sh data dt) =>
    match np_reshape ⟨(0, 0, 0), data, List.replicate data.length false, dt⟩
        (gp.ncol, gp.nrow, gp.nlay) with
    | .ok arr => .ok (vsTail { gp with values := arr })
    | .error e => .error e
  | .arr (.masked _sh data mask dt) =>
    match np_reshape ⟨(0, 0, 0), data, mask, dt⟩ (gp.ncol, gp.nrow, gp.nlay) with
    | .ok arr => .ok (vsTail { gp with values := arr })
    | .error e => .error e
  | .notArray => .error (.valueError "Problems with values in xtgeo.grid3d.grid_property")

/-- Flat C-order index of cell `(i, j, k)` in an array of the given shape. -/
def flatIdx (sh : Nat × Nat × Nat) (i j k : Nat) : Nat :=
  (i * sh.2.1 + j) * sh.2.2 + k

/-- Cell read `a[i, j, k]` for already-resolved in-range indices: the data
value together with its mask bit. -/
def cellAt (a : MArr) (i j k : Nat) : Rat × Bool :=
  (a.data.getD (flatIdx a.shape i j k) 0, a.mask.getD (flatIdx a.shape i j k) false)

/-- Scalar assignment into a masked array at a list of cell positions:
numpy's `__setitem__` on a (soft-masked) masked array writes the data and
clears the mask at every written position. -/
def setCells (a : MArr) (ps : List (Nat × Nat × Nat)) (v : Rat) : MArr :=
  ps.foldl
    (fun acc p =>
      { acc with
        data := acc.data.set (flatIdx acc.shape p.1 p.2.1 p.2.2) v
        mask := acc.mask.set (flatIdx acc.shape p.1 p.2.1 p.2.2) false })
    a

/-- numpy `ma.masked_greater(a, lim)`: additionally mask every cell whose
data value is strictly greater than `lim`, keeping already-masked cells
masked. -/
def ma_masked_greater (a : MArr) (lim : Rat) : MArr :=
  { a with mask := List.zipWith (fun d m => m || decide (lim < d)) a.data a.mask }

/-- Cell positions written by the constructor's test pattern
`self._values[0:4, 0, 0:2] = self._undef`: slices clamp to the axis sizes,
the scalar index selects row 0. -/
def testPatternCells (ncol nlay : Nat) : List (Nat × Nat × Nat) :=
  (List.range (min 4 ncol)).flatMap
    (fun i => (List.range (min 2 nlay)).map (fun k => (i, (0 : Nat), k)))

/-- The `GridProperty.__init__` constructor (source lines 143-203), for the
direct-construction path (no file import).  `vals = none` models an omitted
`values` argument: the instance is filled with the sentinel test pattern
`99`, four columns of row 0 in the two first layers are set to the undefined
sentinel and then masked via `masked_greater`.  A provided array is reshaped
to `(ncol, nrow, nlay)` when its shape differs (raising `ValueError` on an
element count mismatch) and wrapped as masked if plain.  A discrete property
is cast to int32 and gets roxar dtype uint8.  The test-pattern write indexes
row 0 and therefore raises `IndexError` when `nrow = 0`.  `initBase` is the
part of the constructor that builds the initial array (default fill,
reshape, mask wrapping); `GridProperty.init` is the whole constructor. -/
def initBase (ncol nrow nlay : Nat) (vals : Option NdArr) : Except PyExc MArr :=
  match vals with
  | none =>
    .ok ⟨(ncol, nrow, nlay), List.replicate (ncol * nrow * nlay) 99,
      List.replicate (ncol * nrow * nlay) false, .float64⟩
  | some (.plain sh d dt) =>
    if sh = (ncol, nrow, nlay) then
      .ok ⟨(ncol, nrow, nlay), d, List.replicate d.length false, dt⟩
    else
      match np_reshape ⟨sh, d, List.replicate d.length false, dt⟩ (ncol, nrow, nlay) with
      | .ok a => .ok a
      | .error e => .error e
  | some (.masked sh d m dt) =>
    if sh = (ncol, nrow, nlay) then .ok ⟨(ncol, nrow, nlay), d, m, dt⟩
    else
      match np_reshape ⟨sh, d, m, dt⟩ (ncol, nrow, nlay) with
      | .ok a => .ok a
      | .error e => .error e

/-- The constructor proper: builds the base array via `initBase`, applies
the discrete cast, and (for the default fill) writes and masks the test
pattern. -/
def GridProperty.init (ncol nrow nlay : Nat) (vals : Option NdArr)
    (name : String) (discrete : Bool) : Except PyExc GridProperty :=
  match initBase ncol nrow nlay vals with
  | .error e => .error e
  | .ok arr =>
    let arr := if discrete then arr.astype .int32 else arr
    let rox : NpDtype := if discrete then .uint8 else .float32
    let gp0 : GridProperty :=
      { ncol := ncol, nrow := nrow, nlay := nlay, name := name,
        isdiscrete := discrete, values := arr, codes := [],
        geometry := none, roxar_dtype := rox }
    if vals.isNone then
      if nrow = 0 then .error (.indexError "index 0 is out of bounds for axis 1 with size 0")
      else
        let written := setCells gp0.values (testPatternCells ncol nlay)
          (gp0.values.dtype.castRat UNDEF)
        .ok { gp0 with values := ma_masked_greater written UNDEF_LIMIT }
    else .ok gp0

/-- Row of cells `f k0, f (k0+1), ..., f (k0+n-1)` (innermost slice axis). -/
def sliceRow (f : Nat → α) : Nat → Nat → List α
  | _, 0 => []
  | k0, n + 1 => f k0 :: sliceRow f (k0 + 1) n

/-- Plane of cells: rows `j0 .. j0+nj-1`, each of `nk` cells from `k0`. -/
def slicePlane (f : Nat → Nat → α) (k0 nk : Nat) : Nat → Nat → List α
  | _, 0 => []
  | j0, n + 1 => sliceRow (f j0) k0 nk ++ slicePlane f k0 nk (j0 + 1) n

/-- Box of cells in C order: planes `i0 .. i0+ni-1`. -/
def sliceBox (f : Nat → Nat → Nat → α) (j0 nj k0 nk : Nat) : Nat → Nat → List α
  | _, 0 => []
  | i0, n + 1 => slicePlane (f i0) k0 nk j0 nj ++ sliceBox f j0 nj k0 nk (i0 + 1) n

/-- numpy basic slicing `a[i1:i2, j1:j2, k1:k2]` (non-negative bounds):
upper bounds clamp to the axis sizes, and the sub-block is materialised in
C order with its mask. -/
def MArr.slice3 (a : MArr) (i1 i2 j1 j2 k1 k2 : Nat) : MArr :=
  let ni := min i2 a.shape.1 - i1
  let nj := min j2 a.shape.2.1 - j1
  let nk := min k2 a.shape.2.2 - k1
  { shape := (ni, nj, nk)
    data := sliceBox (fun i j k => (cellAt a i j k).1) j1 nj k1 nk i1 ni
    mask := sliceBox (fun i j k => (cellAt a i j k).2) j1 nj k1 nk i1 ni
    dtype := a.dtype }

/-- The `crop` method (source lines 606-618): the 1-based inclusive ranges
`((ic1, ic2), (jc1, jc2), (kc1, kc2))` first overwrite the instance
dimensions with the new extents, then the sliced copy of the old values is
stored through the values setter (which reshapes it to the new
dimensions). -/
def crop (gp : GridProperty)
    (spec : (Nat × Nat) × (Nat × Nat) × (Nat × Nat)) : Except PyExc GridProperty :=
  let ic1 := spec.1.1
  let ic2 := spec.1.2
  let jc1 := spec.2.1.1
  let jc2 := spec.2.1.2
  let kc1 := spec.2.2.1
  let kc2 := spec.2.2.2
  let gp1 := { gp with
    ncol := ic2 - ic1 + 1, nrow := jc2 - jc1 + 1, nlay := kc2 - kc1 + 1 }
  let nv := gp.values.slice3 (ic1 - 1) ic2 (jc1 - 1) jc2 (kc1 - 1) kc2
  values_setter gp1 (.arr (.masked nv.shape nv.data nv.mask nv.dtype))

/-- A plain (unmasked) numpy array, as returned by `get_npvalues3d`. -/
structure NpArr where
  shape : Nat × Nat × Nat
  data : List Rat
  dtype : NpDtype
deriving DecidableEq

/-- The `get_npvalues3d` method (source lines 499-528): with no
`fill_value`, masked cells are filled with the type-appropriate undefined
sentinel and the dtype is reset to int32 (discrete) or float64
(continuous); with a `fill_value` given, that value is used and the dtype
is `np.float64` unconditionally.  The cast happens before the fill. -/
def get_npvalues3d (gp : GridProperty) (fill_value : Option Rat) : NpArr :=
  let fd : Rat × NpDtype :=
    match fill_value with
    | none => if gp.isdiscrete then ((UNDEF_INT : Rat), .int32) else (UNDEF, .float64)
    | some f => (f, .float64)
  let val := gp.values.astype fd.2
  { shape := val.shape
    data := List.zipWith (fun d m => if m then fd.1 else d) val.data val.mask
    dtype := fd.2 }

/-- Description of the export call `to_file` delegates to the external
`_gridprop_export.export_roff` collaborator. -/
structure ExportCall where
  name : String
  binary : Bool
  append : Bool
  last : Bool
deriving DecidableEq

/-- The `to_file` method (source lines 780-812): `'guess'` resolves to
`'roff'`; when `'roff'` occurs in the resolved format string an export call
is issued (ASCII when `'asc'` occurs, else binary, with the instance name
when none is given); otherwise the method body simply ends — no export is
performed and no exception is raised. -/
def to_file (gp : GridProperty) (fformat : String) (name : Option String) :
    Except PyExc (Option ExportCall) :=
  let fformat := if fformat = "guess" then "roff" else fformat
  if strHas fformat "roff" then
    let name := name.getD gp.name
    let binary := !strHas fformat "asc"
    .ok (some { name := name, binary := binary, append := false, last := true })
  else .ok none

/-- Python `'{}'.format(x)` for the `date` variable (an int or `None`). -/
def pyShow : Option Int → String
  | none => "None"
  | some d => toString d

/-- The status-code translation at the end of `from_file` (source lines
719-733).  The integer `ier` is returned by the external codec collaborator
(`_gridprop_import`); the dispatcher maps 22 to `DateNotFoundError`, 23 and
25 to `KeywordNotFoundError`, 24 to `KeywordFoundNoDateError`, any other
non-zero code to a `RuntimeError` carrying the code, and 0 to success. -/
def from_file_ier (ier : Int) (name : String) (date : Option Int) :
    Except PyExc Unit :=
  if ier = 22 then
    .error (.dateNotFoundError
      ("Date " ++ pyShow date ++ " not found when importing " ++ name))
  else if ier = 23 then
    .error (.keywordNotFoundError
      ("Keyword " ++ name ++ " not found for date " ++ pyShow date ++ " when importing"))
  else if ier = 24 then
    .error (.keywordFoundNoDateError
      ("Keyword " ++ name ++ " found but not for date " ++ pyShow date ++ " when importing"))
  else if ier = 25 then
    .error (.keywordNotFoundError ("Keyword " ++ name ++ " not found when importing"))
  else if ier ≠ 0 then
    .error (.runtimeError ("Something went wrong, code " ++ toString ier))
  else .ok ()

/-- The `operation_polygons` method (source lines 926-945): when the
geometry link is not set it raises `ValueError` (the spec taxonomy's
`PreconditionError`) before anything else happens, so the values are not
modified; otherwise it delegates to the external `_gridprop_op1`
collaborator, here a parameter `opImpl`. -/
def operation_polygons {P : Type} (opImpl : GridProperty → P → Rat → String → Bool → GridProperty)
    (gp : GridProperty) (poly : P) (value : Rat) (opname : String) (inside : Bool) :
    Except PyExc GridProperty :=
  if gp.geometry.isNone then
    .error (.valueError "The geometry attribute is not set")
  else .ok (opImpl gp poly value opname inside)

/-- Convenience wrapper `add_inside` (source lines 948-950). -/
def add_inside {P : Type} (opImpl : GridProperty → P → Rat → String → Bool → GridProperty)
    (gp : GridProperty) (poly : P) (value : Rat) : Except PyExc GridProperty :=
  operation_polygons opImpl gp poly value "add" true

/-- Convenience wrapper `add_outside`. -/
def add_outside {P : Type} (opImpl : GridProperty → P → Rat → String → Bool → GridProperty)
    (gp : GridProperty) (poly : P) (value : Rat) : Except PyExc GridProperty :=
  operation_polygons opImpl gp poly value "add" false

/-- Convenience wrapper `sub_inside`. -/
def sub_inside {P : Type} (opImpl : GridProperty → P → Rat → String → Bool → GridProperty)
    (gp : GridProperty) (poly : P) (value : Rat) : Except PyExc GridProperty :=
  operation_polygons opImpl gp poly value "sub" true

/-- Convenience wrapper `sub_outside`. -/
def sub_outside {P : Type} (opImpl : GridProperty → P → Rat → String → Bool → GridProperty)
    (gp : GridProperty) (poly : P) (value : Rat) : Except PyExc GridProperty :=
  operation_polygons opImpl gp poly value "sub" false

/-- Convenience wrapper `mul_inside`. -/
def mul_inside {P : Type} (opImpl : GridProperty → P → Rat → String → Bool → GridProperty)
    (gp : GridProperty) (poly : P) (value : Rat) : Except PyExc GridProperty :=
  operation_polygons opImpl gp poly value "mul" true

/-- Convenience wrapper `mul_outside`. -/
def mul_outside {P : Type} (opImpl : GridProperty → P → Rat → String → Bool → GridProperty)
    (gp : GridProperty) (poly : P) (value : Rat) : Except PyExc GridProperty :=
  operation_polygons opImpl gp poly value "mul" false

/-- Convenience wrapper `div_inside`. -/
def div_inside {P : Type} (opImpl : GridProperty → P → Rat → String → Bool → GridProperty)
    (gp : GridProperty) (poly : P) (value : Rat) : Except PyExc GridProperty :=
  operation_polygons opImpl gp poly value "div" true

/-- Convenience wrapper `div_outside`. -/
def div_outside {P : Type} (opImpl : GridProperty → P → Rat → String → Bool → GridProperty)
    (gp : GridProperty) (poly : P) (value : Rat) : Except PyExc GridProperty :=
  operation_polygons opImpl gp poly value "div" false

/-- Convenience wrapper `set_inside`. -/
def set_inside {P : Type} (opImpl : GridProperty → P → Rat → String → Bool → GridProperty)
    (gp : GridProperty) (poly : P) (value : Rat) : Except PyExc GridProperty :=
  operation_polygons opImpl gp poly value "set" true

/-- Convenience wrapper `set_outside`. -/
def set_outside {P : Type} (opImpl : GridProperty → P → Rat → String → Bool → GridProperty)
    (gp : GridProperty) (poly : P) (value : Rat) : Except PyExc GridProperty :=
  operation_polygons opImpl gp poly value "set" false

/-- numpy index resolution on one axis of size `dim`: indices in
`[0, dim)` address directly, indices in `[-dim, 0)` wrap from the end, and
anything else raises `IndexError`. -/
def npAxisIndex (dim : Nat) (i : Int) : Option Nat :=
  if 0 ≤ i ∧ i < (dim : Int) then some i.toNat
  else if -(dim : Int) ≤ i ∧ i < 0 then some (i + dim).toNat
  else none

/-- Zip of three equal-length index lists into index triples (the pairing
the fancy-indexing expression `self.values[ia, ja, ka]` performs). -/
def zip3idx : List Int → List Int → List Int → List (Int × Int × Int)
  | i :: is, j :: js, k :: ks => (i, j, k) :: zip3idx is js ks
  | _, _, _ => []

/-- Fancy-indexing read `a[ia, ja, ka]`: resolves every index triple and
returns the addressed cells (value and mask bit); `none` models the
`IndexError` raised as soon as any index is out of numpy's admissible
range. -/
def lookupCells (a : MArr) : List (Int × Int × Int) → Option (List (Rat × Bool))
  | [] => some []
  | t :: rest =>
    match npAxisIndex a.shape.1 t.1, npAxisIndex a.shape.2.1 t.2.1,
        npAxisIndex a.shape.2.2 t.2.2, lookupCells a rest with
    | some i, some j, some k, some cs => some (cellAt a i j k :: cs)
    | _, _, _, _ => none

/-- Decidable in-bounds test for one index triple. -/
def tripleInBounds (a : MArr) (t : Int × Int × Int) : Bool :=
  (npAxisIndex a.shape.1 t.1).isSome && (npAxisIndex a.shape.2.1 t.2.1).isSome &&
    (npAxisIndex a.shape.2.2 t.2.2).isSome

/-- One input index array after the method's own preprocessing: drop the
not-a-number samples (`iarr[~np.isnan(iarr)]`), truncate to int
(`astype('int')`) and subtract the index base. -/
def gvbFilter (arr : List (Option Rat)) (base : Int) : List Int :=
  (arr.filterMap id).map (fun q => truncRat q - base)

/-- Materialisation of `res[valids] = cells` followed by
`np.ma.filled(res, fill_value=np.nan)`.  The result buffer starts as zeros
wholly masked by `masked_equal(res, 0)`; positions whose input index was
not-a-number stay masked and fill to NaN (`none`).  Assignment into the
soft-masked buffer writes the data and copies the source mask bit, so an
assigned position ends up NaN exactly when the addressed cell was masked —
an assigned data value of `0` is unmasked and survives as `0`. -/
def fillRes : List (Option Rat) → List (Rat × Bool) → List (Option Rat)
  | [], _ => []
  | none :: rest, cells => none :: fillRes rest cells
  | some _ :: rest, [] => none :: fillRes rest []
  | some _ :: rest, c :: cs => (if c.2 then none else some c.1) :: fillRes rest cs

/-- The `get_values_by_ijk` method (source lines 845-887).  Sample values
are `Option Rat` with `none` playing not-a-number.  The three index arrays
are each filtered by their own not-a-number pattern, truncated and
rebased; the property values are fancy-indexed by the resulting triples
(with `IndexError` — from an out-of-range index, or from index lists that
cannot be broadcast because their lengths differ — caught, a warning
emitted, and `none` returned for the whole call); on success the result
buffer is filled as in `fillRes`.  (numpy's length-1 broadcast of index
arrays is not modelled; no claim exercises it.) -/
def get_values_by_ijk (gp : GridProperty) (iarr jarr karr : List (Option Rat))
    (base : Int) : Option (List (Option Rat)) :=
  let ia := gvbFilter iarr base
  let ja := gvbFilter jarr base
  let ka := gvbFilter karr base
  if ia.length = ja.length ∧ ja.length = ka.length then
    match lookupCells gp.values (zip3idx ia ja ka) with
    | some cells => some (fillRes iarr cells)
    | none => none
  else none

/-- Example: a continuous 2 by 2 by 2 property with all cells defined. -/
def exgpA : GridProperty :=
  { ncol := 2, nrow := 2, nlay := 2, name := "A", isdiscrete := false,
    values := ⟨(2, 2, 2), [1, 2, 3, 4, 5, 6, 7, 8], List.replicate 8 false, .float64⟩,
    codes := [], geometry := none, roxar_dtype := .float32 }

/-- Example: a discrete 1 by 2 by 1 property. -/
def exgpD : GridProperty :=
  { ncol := 1, nrow := 2, nlay := 1, name := "D", isdiscrete := true,
    values := ⟨(1, 2, 1), [3, 5], [false, false], .int32⟩,
    codes := [(3, "3"), (5, "5")], geometry := none, roxar_dtype := .uint16 }

/-- Example: a continuous 1 by 1 by 1 property whose single cell holds the
value 0, unmasked. -/
def exgpZ : GridProperty :=
  { ncol := 1, nrow := 1, nlay := 1, name := "Z", isdiscrete := false,
    values := ⟨(1, 1, 1), [0], [false], .float64⟩,
    codes := [], geometry := none, roxar_dtype := .float32 }

/-- Example: a continuous 1 by 1 by 2 property with one masked cell. -/
def exgpM : GridProperty :=
  { ncol := 1, nrow := 1, nlay := 2, name := "M", isdiscrete := false,
    values := ⟨(1, 1, 2), [1/2, 7], [false, true], .float64⟩,
    codes := [], geometry := none, roxar_dtype := .float32 }

/-- Example: a trivial stand-in for the external polygon-operation
collaborator, used only to instantiate theorems at a concrete input. -/
def exOpImpl : GridProperty → Unit → Rat → String → Bool → GridProperty :=
  fun g _ _ _ _ => g

/-- Resolution of one index triple against an array: the addressed cell
(value and mask bit) when all three indices are admissible — the only case
exercised under the in-bounds hypotheses; the fallback pair is never
reached there. -/
def resolveTriple (a : MArr) (t : Int × Int × Int) : Rat × Bool :=
  match npAxisIndex a.shape.1 t.1, npAxisIndex a.shape.2.1 t.2.1,
      npAxisIndex a.shape.2.2 t.2.2 with
  | some i, some j, some k => cellAt a i j k
  | _, _, _ => (0, false)

/-- Reference semantics for one non-NaN sample of `get_values_by_ijk`:
truncate, rebase and resolve the three indices, then return the addressed
cell's stored value when the cell is unmasked (a stored 0 included) and
not-a-number when the cell is masked. -/
def sampleLookup (a : MArr) (base : Int) (qi qj qk : Rat) : Option Rat :=
  match npAxisIndex a.shape.1 (truncRat qi - base),
      npAxisIndex a.shape.2.1 (truncRat qj - base),
      npAxisIndex a.shape.2.2 (truncRat qk - base) with
  | some i, some j, some k =>
    if (cellAt a i j k).2 then none else some (cellAt a i j k).1
  | _, _, _ => none

/-- Reference output of an all-in-range `get_values_by_ijk` call, sample
by sample over the three paired index arrays: a not-a-number input
position yields not-a-number, and every other position yields
`sampleLookup` of its triple.  This is a specification-side
characterisation the method is compared against, not code from the
source. -/
def gvbExpected (a : MArr) (base : Int) :
    List (Option Rat) → List (Option Rat) → List (Option Rat) → List (Option Rat)
  | none :: is, _ :: js, _ :: ks => none :: gvbExpected a base is js ks
  | some qi :: is, some qj :: js, some qk :: ks =>
    sampleLookup a base qi qj qk :: gvbExpected a base is js ks
  | _, _, _ => []

/-- Example: a continuous 1 by 1 by 2 property whose first cell holds the
value 0 (unmasked) and whose second cell is masked. -/
def exgpW : GridProperty :=
  { ncol := 1, nrow := 1, nlay := 2, name := "W", isdiscrete := false,
    values := ⟨(1, 1, 2), [0, 5], [false, true], .float64⟩,
    codes := [], geometry := none, roxar_dtype := .float32 }

/-- The shape invariant of the spec: the stored array's shape agrees with
the instance dimensions, and the flat data and mask have exactly
`ncol * nrow * nlay` entries. -/
def ShapeOk (gp : GridProperty) : Prop :=
  gp.values.shape = (gp.ncol, gp.nrow, gp.nlay) ∧
  gp.values.data.length = gp.ncol * gp.nrow * gp.nlay ∧
  gp.values.mask.length = gp.ncol * gp.nrow * gp.nlay

theorem astype_shape (a : MArr) (dt : NpDtype) : (a.astype dt).shape = a.shape := rfl

theorem astype_mask (a : MArr) (dt : NpDtype) : (a.astype dt).mask = a.mask := rfl

theorem astype_data_length (a : MArr) (dt : NpDtype) :
    (a.astype dt).data.length = a.data.length := by
  simp [MArr.astype]

theorem c2d_pres (gp : GridProperty) :
    (continuous_to_discrete gp).ncol = gp.ncol ∧
    (continuous_to_discrete gp).nrow = gp.nrow ∧
    (continuous_to_discrete gp).nlay = gp.nlay ∧
    (continuous_to_discrete gp).values.shape = gp.values.shape ∧
    (continuous_to_discrete gp).values.mask = gp.values.mask ∧
    (continuous_to_discrete gp).values.data.length = gp.values.data.length := by
  by_cases h : gp.isdiscrete <;> simp [continuous_to_discrete, h, MArr.astype]

theorem d2c_pres (gp : GridProperty) :
    (discrete_to_continuous gp).ncol = gp.ncol ∧
    (discrete_to_continuous gp).nrow = gp.nrow ∧
    (discrete_to_continuous gp).nlay = gp.nlay ∧
    (discrete_to_continuous gp).values.shape = gp.values.shape ∧
    (discrete_to_continuous gp).values.mask = gp.values.mask ∧
    (discrete_to_continuous gp).values.data.length = gp.values.data.length := by
  by_cases h : gp.isdiscrete <;> simp [discrete_to_continuous, h, MArr.astype]

theorem vsTail_pres (gp : GridProperty) :
    (vsTail gp).ncol = gp.ncol ∧
    (vsTail gp).nrow = gp.nrow ∧
    (vsTail gp).nlay = gp.nlay ∧
    (vsTail gp).values.shape = gp.values.shape ∧
    (vsTail gp).values.mask = gp.values.mask ∧
    (vsTail gp).values.data.length = gp.values.data.length := by
  unfold vsTail
  by_cases h1 : gp.values.dtype.isIntLike = gp.isdiscrete
  · simp [h1]
  · by_cases h2 : gp.values.dtype.isIntLike
    · have hd : gp.isdiscrete = false := by
        cases hv : gp.isdiscrete
        · rfl
        · exact absurd (h2.trans hv.symm) h1
      simpa [h2, hd] using c2d_pres gp
    · have h2' : gp.values.dtype.isIntLike = false := by
        cases hv : gp.values.dtype.isIntLike
        · rfl
        · exact absurd hv h2
      have hd : gp.isdiscrete = true := by
        cases hv : gp.isdiscrete
        · exact absurd (h2'.trans hv.symm) h1
        · rfl
      simpa [h2', hd] using d2c_pres gp

theorem vsTail_shapeOk (gp : GridProperty) (h : ShapeOk gp) : ShapeOk (vsTail gp) := by
  obtain ⟨h1, h2, h3⟩ := h
  obtain ⟨c1, c2, c3, c4, c5, c6⟩ := vsTail_pres gp
  refine ⟨?_, ?_, ?_⟩
  · rw [c4, c1, c2, c3, h1]
  · rw [c6, c1, c2, c3, h2]
  · rw [c5, c1, c2, c3, h3]

theorem values_setter_masked_eq (gp : GridProperty) (sh : Nat × Nat × Nat)
    (data : List Rat) (mask : List Bool) (dt : NpDtype)
    (h : data.length = gp.ncol * gp.nrow * gp.nlay) :
    values_setter gp (.arr (.masked sh data mask dt)) =
      .ok (vsTail { gp with values := ⟨(gp.ncol, gp.nrow, gp.nlay), data, mask, dt⟩ }) := by
  simp [values_setter, np_reshape, h]

theorem values_setter_plain_eq (gp : GridProperty) (sh : Nat × Nat × Nat)
    (data : List Rat) (dt : NpDtype)
    (h : data.length = gp.ncol * gp.nrow * gp.nlay) :
    values_setter gp (.arr (.plain sh data dt)) =
      .ok (vsTail { gp with
        values := ⟨(gp.ncol, gp.nrow, gp.nlay), data, List.replicate data.length false, dt⟩ }) := by
  simp [values_setter, np_reshape, h]

theorem values_setter_ok_shape (gp : GridProperty) (v : PyVal) (gp' : GridProperty)
    (hwf : v.wfb = true) (h : values_setter gp v = .ok gp') : ShapeOk gp' := by
  cases v with
  | notArray => simp [values_setter] at h
  | arr a =>
    cases a with
    | plain sh data dt =>
      by_cases hl : data.length = gp.ncol * gp.nrow * gp.nlay
      · rw [values_setter_plain_eq gp sh data dt hl] at h
        cases h
        exact vsTail_shapeOk _ ⟨rfl, hl, by simpa using hl⟩
      · simp [values_setter, np_reshape, hl] at h
    | masked sh data mask dt =>
      by_cases hl : data.length = gp.ncol * gp.nrow * gp.nlay
      · rw [values_setter_masked_eq gp sh data mask dt hl] at h
        cases h
        simp [NdArr.wfb, PyVal.wfb] at hwf
        exact vsTail_shapeOk _ ⟨rfl, hl, by rw [show mask.length = data.length from hwf.2]; exact hl⟩
      · simp [values_setter, np_reshape, hl] at h

theorem fillRes_length : ∀ (l : List (Option Rat)) (cs : List (Rat × Bool)),
    (fillRes l cs).length = l.length := by
  intro l
  induction l with
  | nil => intro cs; rfl
  | cons o rest ih =>
    intro cs
    cases o with
    | none => simp [fillRes, ih]
    | some q =>
      cases cs with
      | nil => simp [fillRes, ih]
      | cons c cs' => simp [fillRes, ih]

theorem fillRes_nan : ∀ (l : List (Option Rat)) (cs : List (Rat × Bool)) (p : Nat),
    l[p]? = some none → (fillRes l cs)[p]? = some none := by
  intro l
  induction l with
  | nil => intro cs p h; simp at h
  | cons o rest ih =>
    intro cs p h
    cases p with
    | zero =>
      simp at h
      subst h
      cases cs <;> simp [fillRes]
    | succ p' =>
      simp at h
      cases o with
      | none => simpa [fillRes] using ih cs p' h
      | some q =>
        cases cs with
        | nil => simpa [fillRes] using ih [] p' h
        | cons c cs' => simpa [fillRes] using ih cs' p' h

theorem filterMap_isSome_len {α : Type} : ∀ (l1 l2 : List (Option α)),
    l1.map Option.isSome = l2.map Option.isSome →
    (l1.filterMap id).length = (l2.filterMap id).length := by
  intro l1
  induction l1 with
  | nil =>
    intro l2 h
    cases l2 with
    | nil => rfl
    | cons o2 rest2 => simp at h
  | cons o rest ih =>
    intro l2 h
    cases l2 with
    | nil => simp at h
    | cons o2 rest2 =>
      simp only [List.map_cons, List.cons.injEq] at h
      obtain ⟨h1, h2⟩ := h
      cases o <;> cases o2 <;> simp_all [List.filterMap_cons, ih rest2 h2]

theorem lookupCells_all (a : MArr) : ∀ ts : List (Int × Int × Int),
    (∀ t ∈ ts, tripleInBounds a t = true) →
    ∃ cs, lookupCells a ts = some cs ∧ cs.length = ts.length := by
  intro ts
  induction ts with
  | nil => intro _; exact ⟨[], rfl, rfl⟩
  | cons t rest ih =>
    intro h
    obtain ⟨cs, hcs, hlen⟩ := ih (fun x hx => h x (List.mem_cons_of_mem _ hx))
    have ht := h t (List.mem_cons_self _ _)
    simp only [tripleInBounds, Bool.and_eq_true, Option.isSome_iff_exists] at ht
    obtain ⟨⟨⟨i, hi⟩, ⟨j, hj⟩⟩, ⟨k, hk⟩⟩ := ht
    refine ⟨cellAt a i j k :: cs, ?_, by simp [hlen]⟩
    simp [lookupCells, hi, hj, hk, hcs]

theorem lookupCells_bad (a : MArr) : ∀ (ts : List (Int × Int × Int)) (t : Int × Int × Int),
    t ∈ ts → tripleInBounds a t = false → lookupCells a ts = none := by
  intro ts
  induction ts with
  | nil => intro t h; cases h
  | cons s rest ih =>
    intro t hmem hbad
    rcases List.mem_cons.mp hmem with h | h
    · subst h
      unfold lookupCells
      split
      · next i j k cs hi hj hk _ =>
        exfalso
        simp [tripleInBounds, hi, hj, hk] at hbad
      · rfl
    · unfold lookupCells
      split
      · next i j k cs hi hj hk hcs =>
        exfalso
        rw [ih t h hbad] at hcs
        cases hcs
      · rfl

theorem sliceRow_length {α : Type} (f : Nat → α) :
    ∀ (n k0 : Nat), (sliceRow f k0 n).length = n := by
  intro n
  induction n with
  | zero => intro k0; rfl
  | succ m ih => intro k0; simp [sliceRow, ih]

theorem slicePlane_length {α : Type} (f : Nat → Nat → α) (k0 nk : Nat) :
    ∀ (nj j0 : Nat), (slicePlane f k0 nk j0 nj).length = nj * nk := by
  intro nj
  induction nj with
  | zero => intro j0; simp [slicePlane]
  | succ m ih =>
    intro j0
    simp [slicePlane, sliceRow_length, ih]
    ring

theorem sliceBox_length {α : Type} (f : Nat → Nat → Nat → α) (j0 nj k0 nk : Nat) :
    ∀ (ni i0 : Nat), (sliceBox f j0 nj k0 nk i0 ni).length = ni * (nj * nk) := by
  intro ni
  induction ni with
  | zero => intro i0; simp [sliceBox]
  | succ m ih =>
    intro i0
    simp [sliceBox, slicePlane_length, ih]
    ring

theorem setCells_pres (v : Rat) : ∀ (ps : List (Nat × Nat × Nat)) (a : MArr),
    (setCells a ps v).shape = a.shape ∧
    (setCells a ps v).data.length = a.data.length ∧
    (setCells a ps v).mask.length = a.mask.length ∧
    (setCells a ps v).dtype = a.dtype := by
  intro ps
  induction ps with
  | nil => intro a; exact ⟨rfl, rfl, rfl, rfl⟩
  | cons p rest ih =>
    intro a
    have step : setCells a (p :: rest) v =
        setCells
          { a with
            data := a.data.set (flatIdx a.shape p.1 p.2.1 p.2.2) v
            mask := a.mask.set (flatIdx a.shape p.1 p.2.1 p.2.2) false }
          rest v := rfl
    rw [step]
    obtain ⟨e1, e2, e3, e4⟩ := ih
      { a with
        data := a.data.set (flatIdx a.shape p.1 p.2.1 p.2.2) v
        mask := a.mask.set (flatIdx a.shape p.1 p.2.1 p.2.2) false }
    exact ⟨e1, by simpa using e2, by simpa using e3, e4⟩

theorem masked_greater_pres (a : MArr) (lim : Rat) :
    (ma_masked_greater a lim).shape = a.shape ∧
    (ma_masked_greater a lim).data = a.data ∧
    (ma_masked_greater a lim).mask.length = min a.data.length a.mask.length ∧
    (ma_masked_greater a lim).dtype = a.dtype := by
  refine ⟨rfl, rfl, ?_, rfl⟩
  simp [ma_masked_greater]

theorem initBase_ok_shape (ncol nrow nlay : Nat) (vals : Option NdArr) (arr : MArr)
    (hwf : ∀ a, vals = some a → a.wfb = true)
    (h : initBase ncol nrow nlay vals = .ok arr) :
    arr.shape = (ncol, nrow, nlay) ∧
    arr.data.length = ncol * nrow * nlay ∧
    arr.mask.length = ncol * nrow * nlay := by
  cases vals with
  | none =>
    simp [initBase] at h
    subst h
    refine ⟨rfl, by simp, by simp⟩
  | some a =>
    have hwfa : a.wfb = true := hwf a rfl
    cases a with
    | plain sh d dt =>
      simp only [NdArr.wfb, Nat.beq_eq_true_eq] at hwfa
      by_cases hsh : sh = (ncol, nrow, nlay)
      · simp [initBase, hsh] at h
        subst h
        have hd : d.length = ncol * nrow * nlay := by rw [hwfa, hsh]
        exact ⟨rfl, hd, by simp [hd]⟩
      · by_cases hl : d.length = ncol * nrow * nlay
        · simp [initBase, hsh, np_reshape, hl] at h
          subst h
          exact ⟨rfl, hl, by simp [hl]⟩
        · simp [initBase, hsh, np_reshape, hl] at h
    | masked sh d m dt =>
      simp only [NdArr.wfb, Bool.and_eq_true, Nat.beq_eq_true_eq] at hwfa
      obtain ⟨hd0, hm0⟩ := hwfa
      by_cases hsh : sh = (ncol, nrow, nlay)
      · simp [initBase, hsh] at h
        subst h
        have hd : d.length = ncol * nrow * nlay := by rw [hd0, hsh]
        exact ⟨rfl, hd, by rw [hm0]; exact hd⟩
      · by_cases hl : d.length = ncol * nrow * nlay
        · simp [initBase, hsh, np_reshape, hl] at h
          subst h
          exact ⟨rfl, hl, by rw [hm0]; exact hl⟩
        · simp [initBase, hsh, np_reshape, hl] at h

theorem init_ok_shape (ncol nrow nlay : Nat) (vals : Option NdArr) (nm : String)
    (d : Bool) (gp : GridProperty)
    (hwf : ∀ a, vals = some a → a.wfb = true)
    (h : GridProperty.init ncol nrow nlay vals nm d = .ok gp) : ShapeOk gp := by
  cases hb : initBase ncol nrow nlay vals with
  | error e => simp [GridProperty.init, hb] at h
  | ok arr =>
    obtain ⟨s1, s2, s3⟩ := initBase_ok_shape ncol nrow nlay vals arr hwf hb
    have s1' : (if d then arr.astype .int32 else arr).shape = (ncol, nrow, nlay) := by
      cases d <;> simpa [MArr.astype]
    have s2' : (if d then arr.astype .int32 else arr).data.length = ncol * nrow * nlay := by
      cases d <;> simp [MArr.astype, s2]
    have s3' : (if d then arr.astype .int32 else arr).mask.length = ncol * nrow * nlay := by
      cases d <;> simpa [MArr.astype]
    cases vals with
    | some a =>
      simp only [GridProperty.init, hb, Option.isNone_some, Bool.false_eq_true, if_false] at h
      cases h
      exact ⟨s1', s2', s3'⟩
    | none =>
      by_cases hr : nrow = 0
      · subst hr
        simp [GridProperty.init, hb] at h
      · simp only [GridProperty.init, hb, Option.isNone_none, if_true, hr, if_false] at h
        cases h
        set a1 := if d then arr.astype .int32 else arr with ha1
        obtain ⟨p1, p2, p3, _⟩ := setCells_pres (a1.dtype.castRat UNDEF) (testPatternCells ncol nlay) a1
        obtain ⟨q1, q2, q3, _⟩ := masked_greater_pres
          (setCells a1 (testPatternCells ncol nlay) (a1.dtype.castRat UNDEF)) UNDEF_LIMIT
        refine ⟨?_, ?_, ?_⟩
        · simpa [q1, p1] using s1'
        · simpa [q2, p2] using s2'
        · rw [q3, p2, p3, s2', s3']
          simp

theorem crop_ok (gp : GridProperty) (ic1 ic2 jc1 jc2 kc1 kc2 : Nat)
    (hs : ShapeOk gp)
    (hi1 : 1 ≤ ic1) (hi2 : ic1 ≤ ic2) (hi3 : ic2 ≤ gp.ncol)
    (hj1 : 1 ≤ jc1) (hj2 : jc1 ≤ jc2) (hj3 : jc2 ≤ gp.nrow)
    (hk1 : 1 ≤ kc1) (hk2 : kc1 ≤ kc2) (hk3 : kc2 ≤ gp.nlay) :
    ∃ gp', crop gp ((ic1, ic2), (jc1, jc2), (kc1, kc2)) = .ok gp' ∧ ShapeOk gp' ∧
      gp'.ncol = ic2 - ic1 + 1 ∧ gp'.nrow = jc2 - jc1 + 1 ∧ gp'.nlay = kc2 - kc1 + 1 := by
  obtain ⟨hsh, hdl, hml⟩ := hs
  have e1 : gp.values.shape.1 = gp.ncol := by rw [hsh]
  have e2 : gp.values.shape.2.1 = gp.nrow := by rw [hsh]
  have e3 : gp.values.shape.2.2 = gp.nlay := by rw [hsh]
  have hni : min ic2 gp.values.shape.1 - (ic1 - 1) = ic2 - ic1 + 1 := by
    rw [e1]; omega
  have hnj : min jc2 gp.values.shape.2.1 - (jc1 - 1) = jc2 - jc1 + 1 := by
    rw [e2]; omega
  have hnk : min kc2 gp.values.shape.2.2 - (kc1 - 1) = kc2 - kc1 + 1 := by
    rw [e3]; omega
  set nv := gp.values.slice3 (ic1 - 1) ic2 (jc1 - 1) jc2 (kc1 - 1) kc2 with hnv
  set gp1 : GridProperty := { gp with
    ncol := ic2 - ic1 + 1, nrow := jc2 - jc1 + 1, nlay := kc2 - kc1 + 1 } with hgp1
  have hdata : nv.data.length = gp1.ncol * gp1.nrow * gp1.nlay := by
    rw [hnv]
    simp only [MArr.slice3, sliceBox_length, hni, hnj, hnk, hgp1]
    ring
  have hmask : nv.mask.length = gp1.ncol * gp1.nrow * gp1.nlay := by
    rw [hnv]
    simp only [MArr.slice3, sliceBox_length, hni, hnj, hnk, hgp1]
    ring
  have hcrop : crop gp ((ic1, ic2), (jc1, jc2), (kc1, kc2)) =
      values_setter gp1 (.arr (.masked nv.shape nv.data nv.mask nv.dtype)) := rfl
  rw [values_setter_masked_eq gp1 nv.shape nv.data nv.mask nv.dtype hdata] at hcrop
  refine ⟨_, hcrop, ?_, ?_, ?_, ?_⟩
  · exact vsTail_shapeOk _ ⟨rfl, hdata, hmask⟩
  · rw [(vsTail_pres _).1]
  · rw [(vsTail_pres _).2.1]
  · rw [(vsTail_pres _).2.2.1]

/-- C1, counterexample: the claim says `to_file` with a resolved format
string not containing `'roff'` raises an error, but the source's
`if 'roff' in fformat:` has no else branch — exporting with format
`"init"` returns normally having performed no export at all. -/
theorem prop_C1_counterexample :
    strHas "init" "roff" = false ∧ to_file exgpA "init" none = Except.ok none :=
  ⟨by decide, rfl⟩

/-- C1, amended: for every export call whose resolved format string
(`'guess'` resolving to `'roff'`) does not contain `'roff'`, `to_file`
silently performs no export and returns normally — no error is raised. -/
theorem prop_C1 (gp : GridProperty) (fformat : String) (name : Option String)
    (h : strHas (if fformat = "guess" then "roff" else fformat) "roff" = false) :
    to_file gp fformat name = Except.ok none := by
  simp only [to_file, h]
  rw [if_neg]
  simp

/-- C1, witness: the amended theorem evaluated at the unsupported format
`"banana"`. -/
theorem prop_C1_witness :
    to_file exgpA "banana" none = Except.ok none :=
  prop_C1 exgpA "banana" none (by decide)

/-- C2, counterexample: the claim says `get_npvalues3d` always returns
int32 for a discrete property, but when a `fill_value` is supplied the
source sets `dtype = np.float64` unconditionally — a discrete property
with `fill_value = 0` comes back as float64. -/
theorem prop_C2_counterexample :
    exgpD.isdiscrete = true ∧ (get_npvalues3d exgpD (some 0)).dtype = NpDtype.float64 ∧
      NpDtype.float64 ≠ NpDtype.int32 :=
  ⟨rfl, rfl, by decide⟩

/-- C2, amended: with no `fill_value`, `get_npvalues3d` resets the dtype
to int32 for a discrete property and float64 for a continuous one
(regardless of the internal storage dtype); whenever a `fill_value` is
supplied the dtype is float64 unconditionally. -/
theorem prop_C2 (gp : GridProperty) :
    ((get_npvalues3d gp none).dtype =
      if gp.isdiscrete then NpDtype.int32 else NpDtype.float64) ∧
    ∀ f : Rat, (get_npvalues3d gp (some f)).dtype = NpDtype.float64 := by
  constructor
  · by_cases h : gp.isdiscrete <;> simp [get_npvalues3d, h]
  · intro f; rfl

/-- C3: every polygon-restricted operation — `operation_polygons` itself
and each convenience wrapper — invoked on a property whose geometry link
is not set raises an error before anything else happens (the `ValueError`
with message "The geometry attribute is not set", which is the spec
taxonomy's `PreconditionError`: section 7 of the spec defines
`PreconditionError` as exactly this missing-geometry situation); since the
raise precedes the delegation that would mutate the array, the property's
values are not modified (the embedding returns no new state). -/
theorem prop_C3 {P : Type} (opImpl : GridProperty → P → Rat → String → Bool → GridProperty)
    (gp : GridProperty) (poly : P) (value : Rat) (opname : String) (inside : Bool)
    (h : gp.geometry = none) :
    operation_polygons opImpl gp poly value opname inside =
      .error (.valueError "The geometry attribute is not set") ∧
    add_inside opImpl gp poly value = .error (.valueError "The geometry attribute is not set") ∧
    add_outside opImpl gp poly value = .error (.valueError "The geometry attribute is not set") ∧
    sub_inside opImpl gp poly value = .error (.valueError "The geometry attribute is not set") ∧
    sub_outside opImpl gp poly value = .error (.valueError "The geometry attribute is not set") ∧
    mul_inside opImpl gp poly value = .error (.valueError "The geometry attribute is not set") ∧
    mul_outside opImpl gp poly value = .error (.valueError "The geometry attribute is not set") ∧
    div_inside opImpl gp poly value = .error (.valueError "The geometry attribute is not set") ∧
    div_outside opImpl gp poly value = .error (.valueError "The geometry attribute is not set") ∧
    set_inside opImpl gp poly value = .error (.valueError "The geometry attribute is not set") ∧
    set_outside opImpl gp poly value = .error (.valueError "The geometry attribute is not set") := by
  have key : ∀ (op : String) (ins : Bool),
      operation_polygons opImpl gp poly value op ins =
        .error (.valueError "The geometry attribute is not set") := by
    intro op ins
    simp [operation_polygons, h]
  exact ⟨key opname inside, key "add" true, key "add" false, key "sub" true, key "sub" false,
    key "mul" true, key "mul" false, key "div" true, key "div" false,
    key "set" true, key "set" false⟩

/-- C3, witness: the theorem evaluated on a concrete geometry-less
property. -/
theorem prop_C3_witness :
    operation_polygons exOpImpl exgpA () 1 "add" true =
      .error (.valueError "The geometry attribute is not set") :=
  (prop_C3 exOpImpl exgpA () 1 "add" true rfl).1

/-- C4: assigning, through the values setter, an array (plain or masked)
whose element count does not match `ncol * nrow * nlay` raises the
element-count-mismatch `ValueError` from numpy's reshape (the spec
taxonomy's `ShapeError`); the raise happens before the assignment
`self._values = values`, so the stored array is left unchanged (the
embedding returns an error and no new state). -/
theorem prop_C4 (gp : GridProperty) (sh : Nat × Nat × Nat) (data : List Rat)
    (mask : List Bool) (dt : NpDtype)
    (h : data.length ≠ gp.ncol * gp.nrow * gp.nlay) :
    values_setter gp (.arr (.plain sh data dt)) =
      .error (.valueError "cannot reshape array") ∧
    values_setter gp (.arr (.masked sh data mask dt)) =
      .error (.valueError "cannot reshape array") := by
  constructor <;> simp [values_setter, np_reshape, h]

/-- C4, witness: a three-element array assigned to a 2 by 2 by 2
property. -/
theorem prop_C4_witness :
    values_setter exgpA (.arr (.plain (3, 1, 1) [1, 2, 3] .float64)) =
      .error (.valueError "cannot reshape array") :=
  (prop_C4 exgpA (3, 1, 1) [1, 2, 3] [false, false, false] .float64 (by decide)).1

/-- C5: the codec's integer status code is never surfaced raw: 0 means
success, 22 raises `DateNotFoundError`, 23 and 25 raise
`KeywordNotFoundError`, 24 raises `KeywordFoundNoDateError`, and any other
non-zero code raises a `RuntimeError` whose message carries the code. -/
theorem prop_C5 (ier : Int) (name : String) (date : Option Int) :
    from_file_ier 0 name date = .ok () ∧
    from_file_ier 22 name date = .error (.dateNotFoundError
      ("Date " ++ pyShow date ++ " not found when importing " ++ name)) ∧
    from_file_ier 23 name date = .error (.keywordNotFoundError
      ("Keyword " ++ name ++ " not found for date " ++ pyShow date ++ " when importing")) ∧
    from_file_ier 24 name date = .error (.keywordFoundNoDateError
      ("Keyword " ++ name ++ " found but not for date " ++ pyShow date ++ " when importing")) ∧
    from_file_ier 25 name date = .error (.keywordNotFoundError
      ("Keyword " ++ name ++ " not found when importing")) ∧
    (ier ≠ 0 → ier ≠ 22 → ier ≠ 23 → ier ≠ 24 → ier ≠ 25 →
      from_file_ier ier name date = .error (.runtimeError
        ("Something went wrong, code " ++ toString ier))) := by
  refine ⟨by simp [from_file_ier], by simp [from_file_ier], by simp [from_file_ier],
    by simp [from_file_ier], by simp [from_file_ier], ?_⟩
  intro h0 h22 h23 h24 h25
  simp [from_file_ier, h0, h22, h23, h24, h25]

/-- C5, witness: the generic translation at the unmapped code 7. -/
theorem prop_C5_witness :
    from_file_ier 7 "PORO" none = .error (.runtimeError "Something went wrong, code 7") :=
  (prop_C5 7 "PORO" none).2.2.2.2.2 (by decide) (by decide) (by decide) (by decide) (by decide)

/-- C7: converting a continuous property to discrete and back preserves
the dimensions triple, the set of masked cell positions, and the array
shape (both conversions only `astype` the data, which never touches the
mask or the dimensions; values themselves are truncated to int32 on the
way and are not claimed to round-trip). -/
theorem prop_C7 (gp : GridProperty) (h : gp.isdiscrete = false) :
    (discrete_to_continuous (continuous_to_discrete gp)).ncol = gp.ncol ∧
    (discrete_to_continuous (continuous_to_discrete gp)).nrow = gp.nrow ∧
    (discrete_to_continuous (continuous_to_discrete gp)).nlay = gp.nlay ∧
    (discrete_to_continuous (continuous_to_discrete gp)).values.mask = gp.values.mask ∧
    (discrete_to_continuous (continuous_to_discrete gp)).values.shape = gp.values.shape := by
  simp [continuous_to_discrete, discrete_to_continuous, h, MArr.astype]

/-- C7, witness: the round-trip on a concrete continuous property with a
masked cell. -/
theorem prop_C7_witness :
    (discrete_to_continuous (continuous_to_discrete exgpM)).ncol = exgpM.ncol ∧
    (discrete_to_continuous (continuous_to_discrete exgpM)).nrow = exgpM.nrow ∧
    (discrete_to_continuous (continuous_to_discrete exgpM)).nlay = exgpM.nlay ∧
    (discrete_to_continuous (continuous_to_discrete exgpM)).values.mask = exgpM.values.mask ∧
    (discrete_to_continuous (continuous_to_discrete exgpM)).values.shape = exgpM.values.shape :=
  prop_C7 exgpM rfl

theorem c2d_shapeOk (gp : GridProperty) (h : ShapeOk gp) :
    ShapeOk (continuous_to_discrete gp) := by
  obtain ⟨h1, h2, h3⟩ := h
  obtain ⟨c1, c2, c3, c4, c5, c6⟩ := c2d_pres gp
  refine ⟨?_, ?_, ?_⟩
  · rw [c4, c1, c2, c3, h1]
  · rw [c6, c1, c2, c3, h2]
  · rw [c5, c1, c2, c3, h3]

theorem d2c_shapeOk (gp : GridProperty) (h : ShapeOk gp) :
    ShapeOk (discrete_to_continuous gp) := by
  obtain ⟨h1, h2, h3⟩ := h
  obtain ⟨c1, c2, c3, c4, c5, c6⟩ := d2c_pres gp
  refine ⟨?_, ?_, ?_⟩
  · rw [c4, c1, c2, c3, h1]
  · rw [c6, c1, c2, c3, h2]
  · rw [c5, c1, c2, c3, h3]

/-- C6: behaviour of `get_values_by_ijk`.  First conjunct: when at least
one sample addresses a cell outside numpy's admissible index range, the
fancy-indexing read raises `IndexError`, which the method catches (with a
warning) and the whole call returns the null result `none` instead of
crashing.  Second conjunct: when the three index arrays share their
not-a-number pattern and every addressed triple is in range (in particular
for `base = 1` with 1-based in-range indices), the call returns one value
per input sample and the output is not-a-number (`none`) at every position
where the input index was not-a-number. -/
theorem prop_C6 (gp : GridProperty) (iarr jarr karr : List (Option Rat)) (base : Int) :
    ((gvbFilter iarr base).length = (gvbFilter jarr base).length →
     (gvbFilter jarr base).length = (gvbFilter karr base).length →
     (∃ t ∈ zip3idx (gvbFilter iarr base) (gvbFilter jarr base) (gvbFilter karr base),
        tripleInBounds gp.values t = false) →
     get_values_by_ijk gp iarr jarr karr base = none) ∧
    (iarr.map Option.isSome = jarr.map Option.isSome →
     iarr.map Option.isSome = karr.map Option.isSome →
     (∀ t ∈ zip3idx (gvbFilter iarr base) (gvbFilter jarr base) (gvbFilter karr base),
        tripleInBounds gp.values t = true) →
     ∃ out, get_values_by_ijk gp iarr jarr karr base = some out ∧
       out.length = iarr.length ∧
       ∀ p : Nat, iarr[p]? = some none → out[p]? = some none) := by
  constructor
  · rintro h1 h2 ⟨t, hmem, hbad⟩
    have hl := lookupCells_bad gp.values _ t hmem hbad
    simp only [get_values_by_ijk]
    rw [if_pos ⟨h1, h2⟩, hl]
  · intro hpj hpk hin
    have l1 : (gvbFilter iarr base).length = (gvbFilter jarr base).length := by
      simp only [gvbFilter, List.length_map]
      exact filterMap_isSome_len _ _ hpj
    have l2 : (gvbFilter jarr base).length = (gvbFilter karr base).length := by
      simp only [gvbFilter, List.length_map]
      exact filterMap_isSome_len _ _ (hpj.symm.trans hpk)
    obtain ⟨cells, hcells, _⟩ := lookupCells_all gp.values _ hin
    refine ⟨fillRes iarr cells, ?_, fillRes_length _ _, fun p hp => fillRes_nan _ _ _ hp⟩
    simp only [get_values_by_ijk]
    rw [if_pos ⟨l1, l2⟩, hcells]

/-- C6, witness: on `exgpA`, a three-sample in-range lookup with a
not-a-number sample returns a result (second conjunct), and a single
out-of-bounds sample makes the whole call return `none` (first
conjunct). -/
theorem prop_C6_witness :
    (get_values_by_ijk exgpA [some 1, none, some 2] [some 1, none, some 1]
      [some 1, none, some 2] 1).isSome = true ∧
    get_values_by_ijk exgpA [some 5] [some 1] [some 1] 1 = none := by
  constructor
  · obtain ⟨out, h1, -, -⟩ := (prop_C6 exgpA [some 1, none, some 2] [some 1, none, some 1]
      [some 1, none, some 2] 1).2 (by decide) (by decide) (by decide)
    rw [h1]
    rfl
  · exact (prop_C6 exgpA [some 5] [some 1] [some 1] 1).1 (by decide) (by decide)
      ⟨(4, 0, 0), by decide, by decide⟩

/-- C8: the invariant `values.shape == dimensions` (with the flat data and
mask sized `ncol * nrow * nlay`) holds after every successful construction,
is (re-)established by every successful values-setter assignment (the
setter reshapes any matching-count array to `(ncol, nrow, nlay)` in C
order), is preserved by `crop` (which overwrites the dimensions with the
new extents before storing the sliced sub-array, so a valid crop succeeds
and the new dimensions are the range extents), and is preserved by the
discrete/continuous conversions (which never change the shape). -/
theorem prop_C8 :
    (∀ (ncol nrow nlay : Nat) (vals : Option NdArr) (nm : String) (d : Bool)
      (gp : GridProperty), (∀ a, vals = some a → a.wfb = true) →
      GridProperty.init ncol nrow nlay vals nm d = .ok gp → ShapeOk gp) ∧
    (∀ (gp : GridProperty) (v : PyVal) (gp' : GridProperty),
      v.wfb = true → values_setter gp v = .ok gp' → ShapeOk gp') ∧
    (∀ (gp : GridProperty) (ic1 ic2 jc1 jc2 kc1 kc2 : Nat),
      ShapeOk gp → 1 ≤ ic1 → ic1 ≤ ic2 → ic2 ≤ gp.ncol →
      1 ≤ jc1 → jc1 ≤ jc2 → jc2 ≤ gp.nrow →
      1 ≤ kc1 → kc1 ≤ kc2 → kc2 ≤ gp.nlay →
      ∃ gp', crop gp ((ic1, ic2), (jc1, jc2), (kc1, kc2)) = .ok gp' ∧ ShapeOk gp' ∧
        gp'.ncol = ic2 - ic1 + 1 ∧ gp'.nrow = jc2 - jc1 + 1 ∧ gp'.nlay = kc2 - kc1 + 1) ∧
    (∀ gp : GridProperty, ShapeOk gp →
      ShapeOk (continuous_to_discrete gp) ∧ ShapeOk (discrete_to_continuous gp)) := by
  refine ⟨init_ok_shape, values_setter_ok_shape, crop_ok, ?_⟩
  intro gp hs
  exact ⟨c2d_shapeOk gp hs, d2c_shapeOk gp hs⟩

/-- C8, witness: cropping the concrete 2 by 2 by 2 property `exgpA` to
ranges `((1,1),(1,2),(1,2))` succeeds with the invariant re-established
and dimensions `(1, 2, 2)`. -/
theorem prop_C8_witness :
    ∃ gp', crop exgpA ((1, 1), (1, 2), (1, 2)) = .ok gp' ∧ ShapeOk gp' ∧
      gp'.ncol = 1 - 1 + 1 ∧ gp'.nrow = 2 - 1 + 1 ∧ gp'.nlay = 2 - 1 + 1 :=
  prop_C8.2.2.1 exgpA 1 1 1 2 1 2 ⟨rfl, by decide, by decide⟩
    (by decide) (by decide) (by decide) (by decide) (by decide) (by decide)
    (by decide) (by decide) (by decide)

/-- C9: dtype auto-detection in the values setter for a matching-count
array.  First conjunct: an integer-like dtype assigned to a currently
continuous property triggers the discrete-conversion (the stored result is
exactly `continuous_to_discrete` of the state with the new array, discrete
and stored as int32).  Second conjunct: a float-like dtype assigned to a
currently discrete property triggers the continuous-conversion (result
continuous, stored as float64).  Third conjunct: when the detected flag
matches the current one, the state is unchanged apart from the stored
array — no conversion, codes and flags intact.  Fourth conjunct: a plain
ndarray behaves exactly like the same data as a masked array with an
all-false mask. -/
theorem prop_C9 (gp : GridProperty) (sh : Nat × Nat × Nat) (data : List Rat)
    (mask : List Bool) (dt : NpDtype)
    (hlen : data.length = gp.ncol * gp.nrow * gp.nlay) :
    (dt.isIntLike = true → gp.isdiscrete = false →
      values_setter gp (.arr (.masked sh data mask dt)) =
        .ok (continuous_to_discrete
          { gp with values := ⟨(gp.ncol, gp.nrow, gp.nlay), data, mask, dt⟩ }) ∧
      (continuous_to_discrete
        { gp with values := ⟨(gp.ncol, gp.nrow, gp.nlay), data, mask, dt⟩ }).isdiscrete = true ∧
      (continuous_to_discrete
        { gp with values := ⟨(gp.ncol, gp.nrow, gp.nlay), data, mask, dt⟩ }).values.dtype =
          NpDtype.int32) ∧
    (dt.isIntLike = false → gp.isdiscrete = true →
      values_setter gp (.arr (.masked sh data mask dt)) =
        .ok (discrete_to_continuous
          { gp with values := ⟨(gp.ncol, gp.nrow, gp.nlay), data, mask, dt⟩ }) ∧
      (discrete_to_continuous
        { gp with values := ⟨(gp.ncol, gp.nrow, gp.nlay), data, mask, dt⟩ }).isdiscrete = false ∧
      (discrete_to_continuous
        { gp with values := ⟨(gp.ncol, gp.nrow, gp.nlay), data, mask, dt⟩ }).values.dtype =
          NpDtype.float64) ∧
    (dt.isIntLike = gp.isdiscrete →
      values_setter gp (.arr (.masked sh data mask dt)) =
        .ok { gp with values := ⟨(gp.ncol, gp.nrow, gp.nlay), data, mask, dt⟩ }) ∧
    values_setter gp (.arr (.plain sh data dt)) =
      values_setter gp (.arr (.masked sh data (List.replicate data.length false) dt)) := by
  refine ⟨?_, ?_, ?_, ?_⟩
  · intro hint hdisc
    rw [values_setter_masked_eq gp sh data mask dt hlen]
    refine ⟨?_, ?_, ?_⟩
    · unfold vsTail
      simp [hint, hdisc, continuous_to_discrete]
    · simp [continuous_to_discrete, hdisc]
    · simp [continuous_to_discrete, hdisc, MArr.astype]
  · intro hint hdisc
    rw [values_setter_masked_eq gp sh data mask dt hlen]
    refine ⟨?_, ?_, ?_⟩
    · unfold vsTail
      simp [hint, hdisc, discrete_to_continuous]
    · simp [discrete_to_continuous, hdisc]
    · simp [discrete_to_continuous, hdisc, MArr.astype]
  · intro hsame
    rw [values_setter_masked_eq gp sh data mask dt hlen]
    unfold vsTail
    simp [hsame]
  · rw [values_setter_masked_eq gp sh data (List.replicate data.length false) dt hlen,
      values_setter_plain_eq gp sh data dt hlen]

/-- C9, witness: assigning an int32 array to the concrete continuous
property `exgpA` triggers the discrete-conversion. -/
theorem prop_C9_witness :
    values_setter exgpA (.arr (.masked (2, 2, 2) [1, 1, 2, 2, 3, 3, 4, 4]
      (List.replicate 8 false) .int32)) =
    .ok (continuous_to_discrete
      { exgpA with values := ⟨(2, 2, 2), [1, 1, 2, 2, 3, 3, 4, 4],
        List.replicate 8 false, .int32⟩ }) :=
  ((prop_C9 exgpA (2, 2, 2) [1, 1, 2, 2, 3, 3, 4, 4] (List.replicate 8 false) .int32
    (by decide)).1 (by decide) rfl).1

theorem lookupCells_eq_map (a : MArr) : ∀ ts : List (Int × Int × Int),
    (∀ t ∈ ts, tripleInBounds a t = true) →
    lookupCells a ts = some (ts.map (resolveTriple a)) := by
  intro ts
  induction ts with
  | nil => intro _; rfl
  | cons t rest ih =>
    intro h
    have hrest := ih (fun x hx => h x (List.mem_cons_of_mem _ hx))
    have ht := h t (List.mem_cons_self _ _)
    simp only [tripleInBounds, Bool.and_eq_true, Option.isSome_iff_exists] at ht
    obtain ⟨⟨⟨i, hi⟩, ⟨j, hj⟩⟩, ⟨k, hk⟩⟩ := ht
    simp [lookupCells, hi, hj, hk, hrest, resolveTriple]

theorem fillRes_expected (a : MArr) (base : Int) : ∀ (iarr jarr karr : List (Option Rat)),
    iarr.map Option.isSome = jarr.map Option.isSome →
    iarr.map Option.isSome = karr.map Option.isSome →
    (∀ t ∈ zip3idx (gvbFilter iarr base) (gvbFilter jarr base) (gvbFilter karr base),
      tripleInBounds a t = true) →
    fillRes iarr ((zip3idx (gvbFilter iarr base) (gvbFilter jarr base)
      (gvbFilter karr base)).map (resolveTriple a)) = gvbExpected a base iarr jarr karr := by
  intro iarr
  induction iarr with
  | nil =>
    intro jarr karr hpj hpk _
    cases jarr with
    | cons o2 js => simp at hpj
    | nil =>
      cases karr with
      | cons o3 ks => simp at hpk
      | nil => rfl
  | cons o is ih =>
    intro jarr karr hpj hpk hin
    cases jarr with
    | nil => simp at hpj
    | cons o2 js =>
      cases karr with
      | nil => simp at hpk
      | cons o3 ks =>
        simp only [List.map_cons, List.cons.injEq] at hpj hpk
        obtain ⟨hpj1, hpj2⟩ := hpj
        obtain ⟨hpk1, hpk2⟩ := hpk
        cases o with
        | none =>
          have ho2 : o2 = none := by
            cases o2
            · rfl
            · simp at hpj1
          have ho3 : o3 = none := by
            cases o3
            · rfl
            · simp at hpk1
          subst ho2
          subst ho3
          exact congrArg (List.cons none) (ih js ks hpj2 hpk2 hin)
        | some qi =>
          have ho2 : ∃ qj, o2 = some qj := by
            cases o2
            · simp at hpj1
            · exact ⟨_, rfl⟩
          have ho3 : ∃ qk, o3 = some qk := by
            cases o3
            · simp at hpk1
            · exact ⟨_, rfl⟩
          obtain ⟨qj, rfl⟩ := ho2
          obtain ⟨qk, rfl⟩ := ho3
          have hhead := hin (truncRat qi - base, truncRat qj - base, truncRat qk - base)
            (List.mem_cons_self _ _)
          simp only [tripleInBounds, Bool.and_eq_true, Option.isSome_iff_exists] at hhead
          obtain ⟨⟨⟨i, hi⟩, ⟨j, hj⟩⟩, ⟨k, hk⟩⟩ := hhead
          have htail := ih js ks hpj2 hpk2 (fun t ht => hin t (List.mem_cons_of_mem _ ht))
          show (if (resolveTriple a (truncRat qi - base, truncRat qj - base,
              truncRat qk - base)).2 then none
            else some (resolveTriple a (truncRat qi - base, truncRat qj - base,
              truncRat qk - base)).1) ::
            fillRes is ((zip3idx (gvbFilter is base) (gvbFilter js base)
              (gvbFilter ks base)).map (resolveTriple a)) =
            sampleLookup a base qi qj qk :: gvbExpected a base is js ks
          rw [htail]
          simp [resolveTriple, sampleLookup, hi, hj, hk]

/-- C10, counterexample: the claim says a sample addressing a cell whose
stored value equals 0 is returned as not-a-number; in fact numpy's
assignment into the soft-masked result buffer (`masked_equal(res, 0)`)
writes the data and clears the mask at every assigned position, so the
lookup of the unmasked 0-valued cell of `exgpZ` is returned as the value
0, not as not-a-number. -/
theorem prop_C10_counterexample :
    get_values_by_ijk exgpZ [some 1] [some 1] [some 1] 1 = some [some 0] ∧
    get_values_by_ijk exgpZ [some 1] [some 1] [some 1] 1 ≠ some [none] := by
  constructor
  · decide
  · decide

/-- C10, amended: for every call whose three index arrays share their
not-a-number pattern and whose index triples are all in range, the output
of `get_values_by_ijk` is exactly the per-sample reference map
`gvbExpected` — each not-a-number input position yields not-a-number, and
every other sample yields the addressed cell's stored value when the cell
is unmasked (in particular a stored 0 is returned as the value 0, not as
not-a-number, because the assignment into the wholly masked
zero-initialised result buffer unmasks every assigned position) and
not-a-number exactly when the addressed cell is masked.  So not-a-number
appears only at not-a-number input positions and at samples addressing
masked (undefined) cells. -/
theorem prop_C10 (gp : GridProperty) (iarr jarr karr : List (Option Rat)) (base : Int)
    (hpj : iarr.map Option.isSome = jarr.map Option.isSome)
    (hpk : iarr.map Option.isSome = karr.map Option.isSome)
    (hin : ∀ t ∈ zip3idx (gvbFilter iarr base) (gvbFilter jarr base) (gvbFilter karr base),
      tripleInBounds gp.values t = true) :
    get_values_by_ijk gp iarr jarr karr base =
      some (gvbExpected gp.values base iarr jarr karr) := by
  have l1 : (gvbFilter iarr base).length = (gvbFilter jarr base).length := by
    simp only [gvbFilter, List.length_map]
    exact filterMap_isSome_len _ _ hpj
  have l2 : (gvbFilter jarr base).length = (gvbFilter karr base).length := by
    simp only [gvbFilter, List.length_map]
    exact filterMap_isSome_len _ _ (hpj.symm.trans hpk)
  simp only [get_values_by_ijk]
  rw [if_pos ⟨l1, l2⟩, lookupCells_eq_map gp.values _ hin]
  exact congrArg some (fillRes_expected gp.values base iarr jarr karr hpj hpk hin)

/-- C10, witness: the amended theorem on a three-sample well-path-style
call against `exgpW`: the 0-valued unmasked cell comes back as the value
0, the not-a-number sample stays not-a-number, and the sample addressing
the masked cell comes back as not-a-number. -/
theorem prop_C10_witness :
    get_values_by_ijk exgpW [some 1, none, some 1] [some 1, none, some 1]
      [some 1, none, some 2] 1 = some [some 0, none, none] := by
  rw [prop_C10 exgpW [some 1, none, some 1] [some 1, none, some 1] [some 1, none, some 2] 1
    (by decide) (by decide) (by decide)]
  decide
